import Mathlib

/-!
Verification of the access-control core of the saharamess repository
(Django mess-management system) against its natural-language specification.

The Python code is shallowly embedded:

* Python strings are modelled as lists of characters (`PyStr`), so that the
  string operations used by the code (`split`, concatenation, f-strings,
  equality) become ordinary list operations.
* Calendar dates are modelled as integers (day numbers); adding one day is
  adding 1.  Instants (`datetime`) are modelled either as a (day, minute of
  day) pair where only the time-of-day comparison matters
  (`core/services.py` cutoff logic) or as a single integer timestamp where
  full instants are compared (`StaffToken` expiry).
* Django querysets over the stored tables are modelled as explicit lists
  carried in a `DB` record; `QuerySet.filter(...).first()` becomes
  `List.find?`, `.exists()` becomes `List.any`.
* `hmac.new(secret, msg, sha256).hexdigest()` and `hashlib.sha256(x).hexdigest()`
  are modelled as function parameters (`hmacHex`, `shaHex`): the claims under
  study do not depend on the internals of SHA-256, only on how the code uses
  the digests.  `hmac.compare_digest` on Python `str` raises `TypeError`
  when either side contains a non-ASCII character; this is modelled
  explicitly (`VerifyOutcome.raised`).
* Functions that can raise are modelled with explicit error outcomes.
-/

/-- Python strings modelled as lists of characters. -/
abbrev PyStr := List Char

/-- Embed a Lean string literal as a `PyStr`. -/
def pstr (s : String) : PyStr := s.data

/-- A character is ASCII when its code point is below 128
(`hmac.compare_digest` on `str` arguments requires ASCII-only strings). -/
def asciiChar (c : Char) : Bool := c.toNat < 128

/-- A Python string is ASCII when all of its characters are. -/
def asciiStr (l : PyStr) : Bool := l.all asciiChar

/-- Decimal digit characters. -/
def isDigitChar (c : Char) : Bool := 48 ≤ c.toNat && c.toNat ≤ 57

/-- Nonempty all-digit strings: the bodies accepted by Python `int()`
after an optional sign. -/
def allDigits (l : PyStr) : Bool := !l.isEmpty && l.all isDigitChar

/-- Numeric value of a digit string (most significant digit first). -/
def digitsVal (l : PyStr) : Nat := l.foldl (fun a c => 10 * a + (c.toNat - 48)) 0

/-- The decimal digit character for a value below 10. -/
def digitChar (d : Nat) : Char :=
  match d with
  | 0 => '0' | 1 => '1' | 2 => '2' | 3 => '3' | 4 => '4'
  | 5 => '5' | 6 => '6' | 7 => '7' | 8 => '8' | _ => '9'

/-- Fuel-based helper for `natDigits`; structural recursion on the fuel
keeps the definition computable by the kernel. -/
def natDigitsAux (fuel n : Nat) : PyStr :=
  match fuel with
  | 0 => []
  | f + 1 => if n < 10 then [digitChar n] else natDigitsAux f (n / 10) ++ [digitChar (n % 10)]

/-- Decimal representation of a natural number, as produced by Python
`str(n)` for `n ≥ 0`. -/
def natDigits (n : Nat) : PyStr := natDigitsAux (n + 1) n

theorem natDigitsAux_irrel (fuel1 : Nat) : ∀ fuel2 n, n < fuel1 → n < fuel2 →
    natDigitsAux fuel1 n = natDigitsAux fuel2 n := by
  induction fuel1 with
  | zero =>
    intro fuel2 n h1 h2
    omega
  | succ f ih =>
    intro fuel2 n h1 h2
    cases fuel2 with
    | zero => omega
    | succ g =>
      simp only [natDigitsAux]
      by_cases hn : n < 10
      · simp [hn]
      · have hd : n / 10 < f := by omega
        have hg : n / 10 < g := by omega
        simp [hn, ih g (n / 10) hd hg]

theorem natDigits_eq (n : Nat) :
    natDigits n = if n < 10 then [digitChar n] else natDigits (n / 10) ++ [digitChar (n % 10)] := by
  by_cases hn : n < 10
  · simp [natDigits, natDigitsAux, hn]
  · rw [if_neg hn]
    show natDigitsAux (n + 1) n = natDigitsAux (n / 10 + 1) (n / 10) ++ [digitChar (n % 10)]
    rw [show natDigitsAux (n + 1) n =
        if n < 10 then [digitChar n]
        else natDigitsAux n (n / 10) ++ [digitChar (n % 10)] from rfl]
    rw [if_neg hn]
    rw [natDigitsAux_irrel n (n / 10 + 1) (n / 10) (by omega) (by omega)]

/-- Decimal representation of a Python `int`, as produced by `str(i)`. -/
def intRepr (i : Int) : PyStr :=
  if i < 0 then '-' :: natDigits i.natAbs else natDigits i.toNat

/-- Model of Python `int(s)` on the fragment exercised by the code: an
optional sign followed by decimal digits parses, everything else raises
`ValueError` (returned here as `none`).  Python additionally strips
whitespace and allows internal underscores; those inputs never arise from
payloads built by `generate_qr_payload` and do not affect the claims. -/
def pyParseInt (l : PyStr) : Option Int :=
  match l with
  | [] => none
  | c :: rest =>
    if c = '-' then (if allDigits rest then some (-(digitsVal rest : Int)) else none)
    else if c = '+' then (if allDigits rest then some (digitsVal rest) else none)
    else if allDigits (c :: rest) then some (digitsVal (c :: rest)) else none

/-- Model of Python `s.split(sep)` for a one-character separator: split on
every occurrence, keeping empty segments (`"".split(sep) = [""]`). -/
def pySplit (sep : Char) : PyStr → List PyStr
  | [] => [[]]
  | c :: rest =>
    match pySplit sep rest with
    | [] => [[]]
    | h :: t => if c = sep then [] :: h :: t else (c :: h) :: t

/-- A string containing no occurrence of the given separator. -/
def sepFree (sep : Char) (l : PyStr) : Bool := l.all (fun c => !(c == sep))

theorem pySplit_ne_nil (sep : Char) (l : PyStr) : pySplit sep l ≠ [] := by
  cases l with
  | nil => simp [pySplit]
  | cons c rest =>
    simp only [pySplit]
    cases pySplit sep rest with
    | nil => simp
    | cons h t =>
      by_cases hc : c = sep <;> simp [hc]

theorem pySplit_sepFree (sep : Char) (l : PyStr) (h : sepFree sep l = true) :
    pySplit sep l = [l] := by
  induction l with
  | nil => rfl
  | cons c rest ih =>
    simp only [sepFree, List.all_cons, Bool.and_eq_true] at h
    obtain ⟨hc, hrest⟩ := h
    have hcs : ¬ c = sep := by
      intro hq
      subst hq
      simp at hc
    simp only [pySplit, ih hrest]
    simp [hcs]

theorem pySplit_append (sep : Char) (a b : PyStr) (h : sepFree sep a = true) :
    pySplit sep (a ++ sep :: b) = a :: pySplit sep b := by
  induction a with
  | nil =>
    simp only [List.nil_append, pySplit]
    cases hb : pySplit sep b with
    | nil => exact absurd hb (pySplit_ne_nil sep b)
    | cons h t => simp
  | cons c a2 ih =>
    simp only [sepFree, List.all_cons, Bool.and_eq_true] at h
    obtain ⟨hc, ha2⟩ := h
    have hcs : ¬ c = sep := by
      intro hq
      subst hq
      simp at hc
    have hrw := ih ha2
    simp only [List.cons_append, pySplit, List.append_eq]
    rw [hrw]
    simp [hcs]

theorem digitChar_toNat (d : Nat) (h : d < 10) : (digitChar d).toNat = 48 + d := by
  match d with
  | 0 => rfl
  | 1 => rfl
  | 2 => rfl
  | 3 => rfl
  | 4 => rfl
  | 5 => rfl
  | 6 => rfl
  | 7 => rfl
  | 8 => rfl
  | 9 => rfl
  | n + 10 => omega

theorem digitChar_isDigit (d : Nat) : isDigitChar (digitChar d) = true := by
  match d with
  | 0 => rfl
  | 1 => rfl
  | 2 => rfl
  | 3 => rfl
  | 4 => rfl
  | 5 => rfl
  | 6 => rfl
  | 7 => rfl
  | 8 => rfl
  | n + 9 => rfl

theorem digitsVal_append_one (l : PyStr) (c : Char) :
    digitsVal (l ++ [c]) = 10 * digitsVal l + (c.toNat - 48) := by
  simp [digitsVal, List.foldl_append]

theorem natDigits_all_digits (n : Nat) : (natDigits n).all isDigitChar = true := by
  induction n using Nat.strong_induction_on with
  | _ n ih =>
    rw [natDigits_eq]
    by_cases h : n < 10
    · simp [h, digitChar_isDigit]
    · have hlt : n / 10 < n := Nat.div_lt_self (by omega) (by omega)
      simp [h, List.all_append, ih (n / 10) hlt, digitChar_isDigit]

theorem natDigits_ne_nil (n : Nat) : natDigits n ≠ [] := by
  rw [natDigits_eq]
  by_cases h : n < 10 <;> simp [h]

theorem digitsVal_natDigits (n : Nat) : digitsVal (natDigits n) = n := by
  induction n using Nat.strong_induction_on with
  | _ n ih =>
    rw [natDigits_eq]
    by_cases h : n < 10
    · simp only [h, if_true]
      simp [digitsVal, digitChar_toNat n h]
    · have hlt : n / 10 < n := Nat.div_lt_self (by omega) (by omega)
      simp only [h, if_false]
      rw [digitsVal_append_one, ih (n / 10) hlt, digitChar_toNat (n % 10) (by omega)]
      omega

theorem allDigits_natDigits (n : Nat) : allDigits (natDigits n) = true := by
  simp only [allDigits, Bool.and_eq_true, Bool.not_eq_true]
  constructor
  · cases h : natDigits n with
    | nil => exact absurd h (natDigits_ne_nil n)
    | cons c cs => simp
  · exact natDigits_all_digits n

theorem digit_char_ne (c : Char) (h : isDigitChar c = true) (d : Char)
    (hd : d.toNat < 48 ∨ 57 < d.toNat) : ¬ c = d := by
  intro hq
  subst hq
  simp only [isDigitChar, Bool.and_eq_true, decide_eq_true_eq] at h
  omega

theorem natDigits_head_not_sign (n : Nat) (c : Char) (cs : PyStr)
    (h : natDigits n = c :: cs) : ¬ c = '-' ∧ ¬ c = '+' := by
  have hall := natDigits_all_digits n
  rw [h] at hall
  simp only [List.all_cons, Bool.and_eq_true] at hall
  refine ⟨digit_char_ne c hall.1 '-' ?_, digit_char_ne c hall.1 '+' ?_⟩
  · left
    decide
  · left
    decide

theorem pyParseInt_natDigits (n : Nat) : pyParseInt (natDigits n) = some (n : Int) := by
  cases h : natDigits n with
  | nil => exact absurd h (natDigits_ne_nil n)
  | cons c cs =>
    obtain ⟨hm, hp⟩ := natDigits_head_not_sign n c cs h
    have had : allDigits (c :: cs) = true := h ▸ allDigits_natDigits n
    have hval : digitsVal (c :: cs) = n := by
      rw [← h]
      exact digitsVal_natDigits n
    simp [pyParseInt, hm, hp, had, hval]

theorem pyParseInt_intRepr (i : Int) : pyParseInt (intRepr i) = some i := by
  by_cases hneg : i < 0
  · simp only [intRepr, hneg, if_true, pyParseInt, if_pos rfl, allDigits_natDigits,
      if_true, digitsVal_natDigits]
    congr 1
    omega
  · simp only [intRepr, hneg, if_false]
    rw [pyParseInt_natDigits]
    congr 1
    omega

theorem sepFree_of_all_digits (l : PyStr) (h : l.all isDigitChar = true) :
    sepFree '|' l = true := by
  simp only [List.all_eq_true] at h
  simp only [sepFree, List.all_eq_true]
  intro c hc
  have hd := h c hc
  have := digit_char_ne c hd '|' (by right; decide)
  simpa using this

theorem natDigits_sepFree (n : Nat) : sepFree '|' (natDigits n) = true :=
  sepFree_of_all_digits (natDigits n) (natDigits_all_digits n)

theorem intRepr_sepFree (i : Int) : sepFree '|' (intRepr i) = true := by
  by_cases hneg : i < 0
  · simp only [intRepr, hneg, if_true, sepFree, List.all_cons, Bool.and_eq_true]
    exact ⟨by decide, natDigits_sepFree i.natAbs⟩
  · simp only [intRepr, hneg, if_false]
    exact natDigits_sepFree i.toNat

theorem natDigits_ascii (n : Nat) : asciiStr (natDigits n) = true := by
  have hall := natDigits_all_digits n
  simp only [List.all_eq_true] at hall
  simp only [asciiStr, List.all_eq_true]
  intro c hc
  have hd := hall c hc
  simp only [isDigitChar, Bool.and_eq_true, decide_eq_true_eq] at hd
  simp only [asciiChar, decide_eq_true_eq]
  omega

/-- Member status (`core/models.py`, `Student.Status`). -/
inductive StudentStatus
  | PENDING
  | APPROVED
  | DENIED
deriving DecidableEq, Repr

/-- Member record (`core/models.py`, `Student`): only the fields read by the
access-control core.  Timestamps and contact fields are never read by the
verified logic and are omitted. -/
structure Student where
  id : PyStr
  name : PyStr
  roll_no : PyStr
  room_no : PyStr
  status : StudentStatus
  qr_version : Int
  qr_nonce : PyStr
deriving DecidableEq, Repr

/-- Payment-cycle status (`core/models.py`, `Payment.Status`). -/
inductive PaymentStatus
  | NONE
  | UPLOADED
  | VERIFIED
  | DENIED
deriving DecidableEq, Repr

/-- Payment cycle (`core/models.py`, `Payment`): the fields the decision
engine and the overlap check read.  `amount`, screenshot and reviewer
fields are never read by the verified logic and are omitted. -/
structure Payment where
  student_id : PyStr
  cycle_start : Int
  cycle_end : Int
  status : PaymentStatus
deriving DecidableEq, Repr

/-- Member exemption (`core/models.py`, `MessCut`). -/
structure MessCut where
  student_id : PyStr
  from_date : Int
  to_date : Int
deriving DecidableEq, Repr

/-- Facility-wide closure (`core/models.py`, `MessClosure`). -/
structure MessClosure where
  from_date : Int
  to_date : Int
deriving DecidableEq, Repr

/-- Declared meal (`core/models.py`, `ScanEvent.Meal`). -/
inductive Meal
  | BREAKFAST
  | LUNCH
  | DINNER
deriving DecidableEq, Repr

/-- Scan verdict (`core/models.py`, `ScanEvent.Result`). -/
inductive ScanResult
  | ALLOWED
  | BLOCKED_NO_PAYMENT
  | BLOCKED_CUT
  | BLOCKED_STATUS
deriving DecidableEq, Repr

/-- Persisted scan record (`core/models.py`, `ScanEvent`).  The
`staff_token` column is filled from `getattr(request, 'staff_token', None)`
in `scan_qr`, an attribute that is never set on the request object, so it
is always null and is omitted here; `scanned_at` is server time and not
read by any verified logic. -/
structure ScanEvent where
  student_id : PyStr
  meal : Meal
  result : ScanResult
  device_info : PyStr
deriving DecidableEq, Repr

/-- Staff scanner bearer token (`core/models.py`, `StaffToken`).
`expires_at` is an instant; instants here are integer timestamps. -/
structure StaffToken where
  label : PyStr
  active : Bool
  expires_at : Option Int
  token_hash : PyStr
deriving DecidableEq, Repr

/-- The persisted state read and written by the verified operations:
the singleton `Settings.qr_secret_version` plus the stored tables. -/
structure DB where
  qr_secret_version : Int
  students : List Student
  payments : List Payment
  mess_cuts : List MessCut
  mess_closures : List MessClosure
  scan_events : List ScanEvent
deriving DecidableEq, Repr

/-- The HMAC message of `QRService.generate_qr_payload`
(`core/services.py` line 37): the pipe-joined version, member id,
issue time and nonce. -/
def qrMessage (v : Int) (student_id : PyStr) (issued_at : Int) (nonce : PyStr) : PyStr :=
  intRepr v ++ '|' :: (student_id ++ '|' :: (intRepr issued_at ++ '|' :: nonce))

/-- Embedding of `QRService.generate_qr_payload` (`core/services.py`
lines 22-44).  `hmacHex secret msg` stands for
`hmac.new(secret, msg, sha256).hexdigest()`; `issued_at` is the integer
timestamp the source takes from the clock. -/
def generate_qr_payload (hmacHex : PyStr → PyStr → PyStr) (secret : PyStr)
    (db : DB) (student : Student) (issued_at : Int) : PyStr :=
  let message := qrMessage db.qr_secret_version student.id issued_at student.qr_nonce
  message ++ '|' :: hmacHex secret message

/-- Outcome of `QRService.verify_qr_code`: the returned student id, the
uniform `None` ("Invalid"), or an exception escaping the function
(`hmac.compare_digest` raises `TypeError` on non-ASCII `str` input, which
the `except (ValueError, IndexError)` clause does not catch). -/
inductive VerifyOutcome
  | ok (student_id : PyStr)
  | invalid
  | raised
deriving DecidableEq, Repr

/-- Embedding of `QRService.verify_qr_code` (`core/services.py` lines
46-81): split into exactly 5 pipe-separated fields, parse and compare the
version against the global `Settings.qr_secret_version`, recompute and
compare the HMAC, then look up the member by id, nonce and version. -/
def verify_qr_code (hmacHex : PyStr → PyStr → PyStr) (secret : PyStr)
    (db : DB) (qr_data : PyStr) : VerifyOutcome :=
  match pySplit '|' qr_data with
  | [version, student_id, issued_at, nonce, signature] =>
    match pyParseInt version with
    | none => VerifyOutcome.invalid
    | some v =>
      if v != db.qr_secret_version then VerifyOutcome.invalid
      else
        let message := version ++ '|' :: (student_id ++ '|' :: (issued_at ++ '|' :: nonce))
        let expected := hmacHex secret message
        if !(asciiStr signature && asciiStr expected) then VerifyOutcome.raised
        else if signature != expected then VerifyOutcome.invalid
        else
          match db.students.find? (fun s =>
              s.id == student_id && s.qr_nonce == nonce && s.qr_version == v) with
          | some s => VerifyOutcome.ok s.id
          | none => VerifyOutcome.invalid
  | _ => VerifyOutcome.invalid

/-- Embedding of the state change of `regenerate_qr_codes`
(`core/views.py` lines 374-416): bump the global secret version and stamp
every approved member with it.  (QR image generation, notification and
audit logging are side effects outside the model.) -/
def regenerate_qr_codes (db : DB) : DB :=
  let newVersion := db.qr_secret_version + 1
  { db with
    qr_secret_version := newVersion,
    students := db.students.map (fun s =>
      if s.status == StudentStatus.APPROVED then { s with qr_version := newVersion } else s) }

/-- A concrete stand-in digest used only to instantiate the `hmacHex` and
`shaHex` parameters in closed witness statements; its outputs are decimal
strings, hence ASCII and pipe-free like real hex digests. -/
def demoHash (l : PyStr) : Nat := l.foldl (fun h c => (h * 131 + c.toNat) % 1000000007) 7

/-- Concrete keyed stand-in for `hmac.new(secret, msg, sha256).hexdigest()`,
for witnesses. -/
def demoHmacHex (secret msg : PyStr) : PyStr := natDigits (demoHash (secret ++ '|' :: msg))

/-- Concrete stand-in for `hashlib.sha256(key).hexdigest()`, for witnesses. -/
def demoShaHex (key : PyStr) : PyStr := natDigits (demoHash key)

/-- Embedding of `MessService.get_valid_payment_for_date`
(`core/services.py` lines 151-159): first stored payment of the member
with status VERIFIED whose inclusive cycle range contains the date. -/
def get_valid_payment_for_date (db : DB) (student : Student) (date : Int) : Option Payment :=
  db.payments.find? (fun p =>
    p.student_id == student.id && p.status == PaymentStatus.VERIFIED &&
    decide (p.cycle_start ≤ date) && decide (date ≤ p.cycle_end))

/-- Embedding of `MessService.is_student_cut_for_date`
(`core/services.py` lines 161-168). -/
def is_student_cut_for_date (db : DB) (student : Student) (date : Int) : Bool :=
  db.mess_cuts.any (fun c =>
    c.student_id == student.id && decide (c.from_date ≤ date) && decide (date ≤ c.to_date))

/-- Embedding of `MessService.is_mess_closed_for_date`
(`core/services.py` lines 170-176). -/
def is_mess_closed_for_date (db : DB) (date : Int) : Bool :=
  db.mess_closures.any (fun c =>
    decide (c.from_date ≤ date) && decide (date ≤ c.to_date))

/-- Verdict plus human-readable reason, as returned by
`MessService.check_meal_access`. -/
structure AccessResult where
  result : ScanResult
  reason : PyStr
deriving DecidableEq, Repr

/-- Embedding of `MessService.check_meal_access` (`core/services.py`
lines 112-149).  The source reads `today` from the clock; it is passed
explicitly here.  The `meal` argument is accepted and, as in the source,
not consulted by any check. -/
def check_meal_access (db : DB) (student : Student) (meal : Meal) (today : Int) : AccessResult :=
  if student.status != StudentStatus.APPROVED then
    ⟨ScanResult.BLOCKED_STATUS, pstr "Student not approved"⟩
  else if (get_valid_payment_for_date db student today).isNone then
    ⟨ScanResult.BLOCKED_NO_PAYMENT, pstr "No valid payment for current period"⟩
  else if is_student_cut_for_date db student today then
    ⟨ScanResult.BLOCKED_CUT, pstr "Student has mess cut for today"⟩
  else if is_mess_closed_for_date db today then
    ⟨ScanResult.BLOCKED_CUT, pstr "Mess is closed today"⟩
  else
    ⟨ScanResult.ALLOWED, pstr "Access granted"⟩

/-- Member snapshot (`MessService.get_student_snapshot` return dict). -/
structure StudentSnapshot where
  id : PyStr
  name : PyStr
  roll_no : PyStr
  room_no : PyStr
  status : StudentStatus
  payment_ok : Bool
  today_cut : Bool
  closure_today : Bool
  overall_status : PyStr
deriving DecidableEq, Repr

/-- Embedding of `MessService.get_student_snapshot` (`core/services.py`
lines 178-213). -/
def get_student_snapshot (db : DB) (student : Student) (today : Int) : StudentSnapshot :=
  let valid_payment := get_valid_payment_for_date db student today
  let payment_ok := valid_payment.isSome
  let today_cut := is_student_cut_for_date db student today
  let closure_today := is_mess_closed_for_date db today
  let overall_status :=
    if student.status != StudentStatus.APPROVED then pstr "NOT_APPROVED"
    else if !payment_ok then pstr "NO_PAYMENT"
    else if today_cut || closure_today then pstr "CUT_OR_CLOSED"
    else pstr "ALLOWED"
  ⟨student.id, student.name, student.roll_no, student.room_no, student.status,
    payment_ok, today_cut, closure_today, overall_status⟩

/-- An instant for the cutoff logic: a calendar day plus the minute of the
day.  The cutoff in the source is 23:00:00, so minute granularity decides
the `now.time() >= cutoff` comparison exactly. -/
structure PyDateTime where
  day : Int
  minuteOfDay : Nat
deriving DecidableEq, Repr

/-- Embedding of `MessService.check_cutoff_rule` (`core/services.py`
lines 215-227): past the fixed 23:00 cutoff the minimum allowed date is
the day after tomorrow, otherwise tomorrow; returns whether the target
date is at or after the minimum. -/
def check_cutoff_rule (now : PyDateTime) (target_date : Int) : Bool :=
  let min_date : Int := if 23 * 60 ≤ now.minuteOfDay then now.day + 2 else now.day + 1
  decide (min_date ≤ target_date)

/-- The distinct `ValidationError` messages `validate_mess_cut_dates` can
raise, in source order. -/
inductive CutValidationError
  | badRange
  | cutoffViolation
  | tooLong
deriving DecidableEq, Repr

/-- Embedding of `validate_mess_cut_dates` (`core/validators.py` lines
137-175).  `cutoffMinutes` embeds the `MESS_CUTOFF_TIME` setting
(default 23:00 = 1380); `now >= now.replace(hour, minute, 0, 0)` is the
minute-of-day comparison. -/
def validate_mess_cut_dates (cutoffMinutes : Nat) (now : PyDateTime)
    (from_date to_date : Int) : Except CutValidationError Unit :=
  if from_date > to_date then Except.error CutValidationError.badRange
  else
    let min_date : Int := if cutoffMinutes ≤ now.minuteOfDay then now.day + 2 else now.day + 1
    if from_date < min_date then Except.error CutValidationError.cutoffViolation
    else if (to_date - from_date) + 1 > 30 then Except.error CutValidationError.tooLong
    else Except.ok ()

/-- Embedding of the `StaffToken.is_valid` property (`core/models.py`
lines 212-219). -/
def StaffToken.is_valid (t : StaffToken) (now : Int) : Bool :=
  if !t.active then false
  else
    match t.expires_at with
    | some e => if e < now then false else true
    | none => true

/-- Embedding of `StaffTokenAuthentication.authenticate_credentials`
(`core/authentication.py` lines 57-73): hash the presented key, look up an
active token by hash (`.get(token_hash=..., active=True)`), then check
`is_valid`; both failure branches raise `AuthenticationFailed`, collapsed
here to `none`. -/
def authenticate_credentials (shaHex : PyStr → PyStr) (tokens : List StaffToken)
    (key : PyStr) (now : Int) : Option StaffToken :=
  let token_hash := shaHex key
  match tokens.find? (fun t => t.token_hash == token_hash && t.active) with
  | none => none
  | some t => if t.is_valid now then some t else none

/-- Outcome of the `reactivate` action. -/
inductive ReactivateOutcome
  | ok
  | alreadyExpired
deriving DecidableEq, Repr

/-- Embedding of `StaffTokenViewSet.reactivate` (`api/v1/viewsets.py`
lines 77-94): refuse (HTTP 400, token untouched) when `expires_at` is
strictly in the past, otherwise set `active = True`. -/
def reactivate (t : StaffToken) (now : Int) : ReactivateOutcome × StaffToken :=
  match t.expires_at with
  | some e =>
      if e < now then (ReactivateOutcome.alreadyExpired, t)
      else (ReactivateOutcome.ok, { t with active := true })
  | none => (ReactivateOutcome.ok, { t with active := true })

/-- Embedding of `StaffTokenViewSet.revoke` (`api/v1/viewsets.py` lines
65-75): set `active = False`. -/
def revoke (t : StaffToken) : StaffToken := { t with active := false }

/-- The distinct `ValidationError` messages `payment_pre_save` can raise,
in source order. -/
inductive PaymentValidationError
  | badCycle
  | overlap
deriving DecidableEq, Repr

/-- Embedding of the `payment_pre_save` signal handler
(`core/signals.py` lines 152-178) for a payment being saved: reject when
`cycle_start >= cycle_end`, then reject when some other stored payment of
the same member with status UPLOADED or VERIFIED satisfies
`cycle_start < new.cycle_end` and `cycle_end > new.cycle_start` (strict
comparisons, verbatim from the queryset).  The overlap check runs on
creation too: the UUID primary key default makes `instance.pk` truthy, and
`exclude(pk=instance.pk)` removes only the instance itself, so `existing`
here are the other stored payments. -/
def payment_pre_save (existing : List Payment) (inst : Payment) :
    Except PaymentValidationError Unit :=
  if inst.cycle_start ≥ inst.cycle_end then Except.error PaymentValidationError.badCycle
  else if existing.any (fun p =>
      p.student_id == inst.student_id &&
      decide (p.cycle_start < inst.cycle_end) &&
      decide (p.cycle_end > inst.cycle_start) &&
      (p.status == PaymentStatus.UPLOADED || p.status == PaymentStatus.VERIFIED)) then
    Except.error PaymentValidationError.overlap
  else Except.ok ()

/-- Saving a new payment: the pre-save signal runs first and a raise aborts
the save, leaving the stored list unchanged; on success the row is stored. -/
def create_payment (existing : List Payment) (inst : Payment) :
    Except PaymentValidationError (List Payment) :=
  match payment_pre_save existing inst with
  | Except.error e => Except.error e
  | Except.ok _ => Except.ok (existing ++ [inst])

/-- Whether a payment's inclusive cycle range contains a date
(the coverage reading used everywhere else in the source:
`cycle_start__lte=date, cycle_end__gte=date`). -/
def payment_covers (p : Payment) (d : Int) : Bool :=
  decide (p.cycle_start ≤ d) && decide (d ≤ p.cycle_end)

/-- Whether a payment is in an active ({UPLOADED, VERIFIED}) status. -/
def payment_active (p : Payment) : Bool :=
  p.status == PaymentStatus.UPLOADED || p.status == PaymentStatus.VERIFIED

/-- The JSON body of a successful (HTTP 200) `scan_qr` response: the
verdict, the id of the created scan record (modelled by its index in the
stored list), and either the member snapshot or a reason. -/
structure ScanResponseData where
  result : ScanResult
  scan_id : Option Nat
  student_snapshot : Option StudentSnapshot
  reason : Option PyStr
deriving DecidableEq, Repr

/-- HTTP outcome of `scan_qr`: a 200 body, or the HTTP 500
internal-server-error answer produced by the blanket `except Exception`
handler. -/
inductive ScanHttpResult
  | ok (data : ScanResponseData)
  | serverError
deriving DecidableEq, Repr

/-- Embedding of the `scan_qr` view (`core/views.py` lines 292-354) after
staff-token authentication and serializer validation: verify the QR
payload; on failure answer `BLOCKED_STATUS` / "Invalid QR code" without
touching the store; otherwise resolve the member, decide access, append a
`ScanEvent` whatever the verdict, and answer with the snapshot exactly
when the verdict is ALLOWED and with the reason otherwise.  An escaped
exception from verification (or a member lookup failure, impossible when
the same store is read) is caught by the blanket handler and becomes
HTTP 500. -/
def scan_qr (hmacHex : PyStr → PyStr → PyStr) (secret : PyStr) (db : DB)
    (qr_data : PyStr) (meal : Meal) (device_info : PyStr) (today : Int) :
    ScanHttpResult × DB :=
  match verify_qr_code hmacHex secret db qr_data with
  | VerifyOutcome.raised => (ScanHttpResult.serverError, db)
  | VerifyOutcome.invalid =>
      (ScanHttpResult.ok ⟨ScanResult.BLOCKED_STATUS, none, none, some (pstr "Invalid QR code")⟩, db)
  | VerifyOutcome.ok student_id =>
      match db.students.find? (fun s => s.id == student_id) with
      | none => (ScanHttpResult.serverError, db)
      | some student =>
          let access := check_meal_access db student meal today
          let ev : ScanEvent := ⟨student.id, meal, access.result, device_info⟩
          let db2 := { db with scan_events := db.scan_events ++ [ev] }
          let resp : ScanResponseData :=
            if access.result == ScanResult.ALLOWED then
              ⟨access.result, some db.scan_events.length,
                some (get_student_snapshot db student today), none⟩
            else
              ⟨access.result, some db.scan_events.length, none, some access.reason⟩
          (ScanHttpResult.ok resp, db2)

/-- Modelled from the spec (paragraph 4.3): the verdict computed by the
first matching rule of the strict precedence order BlockedStatus (status
not Approved), then BlockedNoPayment (no Verified cycle covering today),
then BlockedCut (a member exemption or a facility closure covering today,
merged), then Allowed.  Stated independently of `check_meal_access` to
compare the two. -/
def specDecide (db : DB) (student : Student) (today : Int) : ScanResult :=
  if student.status != StudentStatus.APPROVED then ScanResult.BLOCKED_STATUS
  else if !(db.payments.any (fun p =>
      p.student_id == student.id && p.status == PaymentStatus.VERIFIED &&
      decide (p.cycle_start ≤ today) && decide (today ≤ p.cycle_end))) then
    ScanResult.BLOCKED_NO_PAYMENT
  else if db.mess_cuts.any (fun c =>
        c.student_id == student.id && decide (c.from_date ≤ today) && decide (today ≤ c.to_date))
      || db.mess_closures.any (fun c =>
        decide (c.from_date ≤ today) && decide (today ≤ c.to_date)) then
    ScanResult.BLOCKED_CUT
  else ScanResult.ALLOWED

/-- Modelled from the spec (paragraph 4.4, `EarliestExemptionDate`): if
the time-of-day of `now` is at or after the cutoff time-of-day, the
earliest permissible `fromDate` is today + 2 days, otherwise today + 1. -/
def specEarliestExemptionDate (now : PyDateTime) (cutoffMinutes : Nat) : Int :=
  if cutoffMinutes ≤ now.minuteOfDay then now.day + 2 else now.day + 1

theorem find?_isNone_eq {α} (p : α → Bool) (l : List α) :
    (l.find? p).isNone = !(l.any p) := by
  induction l with
  | nil => rfl
  | cons c t ih =>
    cases hp : p c <;> simp [List.find?, List.any_cons, hp, ih]

/-- C1: for every member, meal and day, `check_meal_access` returns the
first matching verdict of the strict precedence order BlockedStatus
(status not Approved), then BlockedNoPayment (no Verified cycle covering
today), then BlockedCut (member exemption or facility closure covering
today, merged under one code), then Allowed — i.e. it agrees with the
verdict function written down directly from the spec's precedence list;
in particular an Approved member with a covering verified payment and a
covering exemption gets BLOCKED_CUT, and a Pending member gets
BLOCKED_STATUS whatever the later checks would say. -/
theorem claim_C1_access_precedence (db : DB) (student : Student) (meal : Meal) (today : Int) :
    ((check_meal_access db student meal today).result = specDecide db student today)
    ∧ (student.status = StudentStatus.APPROVED →
        (get_valid_payment_for_date db student today).isSome = true →
        is_student_cut_for_date db student today = true →
        (check_meal_access db student meal today).result = ScanResult.BLOCKED_CUT)
    ∧ (student.status = StudentStatus.PENDING →
        (check_meal_access db student meal today).result = ScanResult.BLOCKED_STATUS) := by
  refine ⟨?_, ?_, ?_⟩
  · unfold check_meal_access specDecide get_valid_payment_for_date
      is_student_cut_for_date is_mess_closed_for_date
    rw [find?_isNone_eq]
    repeat' split <;> simp_all
    rename_i hcut hclos hor
    rcases hor with ⟨x, hx, ⟨h1, h2⟩, h3⟩ | ⟨x, hx, h1, h2⟩
    · have := hcut x hx h1 h2
      omega
    · have := hclos x hx h1
      omega
  · intro h1 h2 h3
    cases hvp : get_valid_payment_for_date db student today with
    | none =>
      rw [hvp] at h2
      cases h2
    | some p => simp [check_meal_access, h1, h3, hvp]
  · intro h1
    simp [check_meal_access, h1]

/-- Approved member for the C1 witness. -/
def w1Student : Student :=
  ⟨pstr "s1", pstr "nm", pstr "r1", pstr "rm", StudentStatus.APPROVED, 1, pstr "n"⟩

/-- Store for the C1 witness: a verified payment and an exemption both
cover day 5 for the member. -/
def w1DB : DB :=
  ⟨1, [w1Student], [⟨pstr "s1", 0, 10, PaymentStatus.VERIFIED⟩], [⟨pstr "s1", 5, 5⟩], [], []⟩

theorem claim_C1_access_precedence_witness :
    (check_meal_access w1DB w1Student Meal.LUNCH 5).result = ScanResult.BLOCKED_CUT :=
  (claim_C1_access_precedence w1DB w1Student Meal.LUNCH 5).2.1 (by decide) (by decide) (by decide)

theorem find?_mem_some {α} (p : α → Bool) (l : List α) (x : α) (hx : x ∈ l) (hp : p x = true) :
    ∃ y, l.find? p = some y ∧ p y = true := by
  induction l with
  | nil => cases hx
  | cons c t ih =>
    cases hpc : p c
    · rcases List.mem_cons.mp hx with rfl | hxt
      · rw [hp] at hpc
        cases hpc
      · obtain ⟨y, hy, hpy⟩ := ih hxt
        exact ⟨y, by simp [List.find?, hpc, hy], hpy⟩
    · exact ⟨c, by simp [List.find?, hpc], hpc⟩

theorem split_generate_payload (hmacHex : PyStr → PyStr → PyStr) (secret : PyStr) (db : DB)
    (student : Student) (issued_at : Int)
    (hid : sepFree '|' student.id = true)
    (hnonce : sepFree '|' student.qr_nonce = true)
    (hsig_free : sepFree '|'
      (hmacHex secret (qrMessage db.qr_secret_version student.id issued_at student.qr_nonce)) = true) :
    pySplit '|' (generate_qr_payload hmacHex secret db student issued_at) =
      [intRepr db.qr_secret_version, student.id, intRepr issued_at, student.qr_nonce,
        hmacHex secret (qrMessage db.qr_secret_version student.id issued_at student.qr_nonce)] := by
  have h1 : generate_qr_payload hmacHex secret db student issued_at =
      intRepr db.qr_secret_version ++ '|' :: (student.id ++ '|' :: (intRepr issued_at ++ '|' ::
        (student.qr_nonce ++ '|' ::
          hmacHex secret (qrMessage db.qr_secret_version student.id issued_at student.qr_nonce)))) := by
    simp [generate_qr_payload, qrMessage, List.append_assoc]
  rw [h1, pySplit_append _ _ _ (intRepr_sepFree _), pySplit_append _ _ _ hid,
    pySplit_append _ _ _ (intRepr_sepFree _), pySplit_append _ _ _ hnonce,
    pySplit_sepFree _ _ hsig_free]

theorem verify_generate_eq_ok (hmacHex : PyStr → PyStr → PyStr) (secret : PyStr) (db : DB)
    (student : Student) (issued_at : Int)
    (hid : sepFree '|' student.id = true)
    (hnonce : sepFree '|' student.qr_nonce = true)
    (hsig_free : sepFree '|'
      (hmacHex secret (qrMessage db.qr_secret_version student.id issued_at student.qr_nonce)) = true)
    (hsig_ascii : asciiStr
      (hmacHex secret (qrMessage db.qr_secret_version student.id issued_at student.qr_nonce)) = true)
    (hmem : student ∈ db.students)
    (hver : student.qr_version = db.qr_secret_version) :
    verify_qr_code hmacHex secret db
      (generate_qr_payload hmacHex secret db student issued_at) = VerifyOutcome.ok student.id := by
  have hsplit := split_generate_payload hmacHex secret db student issued_at hid hnonce hsig_free
  have hpred : (fun s =>
      s.id == student.id && s.qr_nonce == student.qr_nonce &&
        s.qr_version == db.qr_secret_version) student = true := by
    simp [hver]
  obtain ⟨y, hy, hpy⟩ := find?_mem_some (fun s =>
      s.id == student.id && s.qr_nonce == student.qr_nonce &&
        s.qr_version == db.qr_secret_version) db.students student hmem hpred
  simp only [Bool.and_eq_true, beq_iff_eq] at hpy
  simp only [verify_qr_code, hsplit, pyParseInt_intRepr, qrMessage, bne_self_eq_false,
    Bool.false_eq_true, if_false, List.append_assoc]
  simp only [qrMessage, List.append_assoc] at hsig_ascii
  simp only [hsig_ascii, Bool.and_self, Bool.not_true, Bool.false_eq_true, if_false]
  simp only [qrMessage, List.append_assoc] at hy
  rw [hy]
  simp [hpy.1.1]

/-- Concrete member for the C2 counterexample: their own `qr_version` (1)
differs from the global secret version (2), as happens to any member whose
QR was not re-stamped when the global epoch advanced. -/
def c2Student : Student :=
  ⟨pstr "sid", pstr "nm", pstr "r1", pstr "rm", StudentStatus.APPROVED, 1, pstr "abc"⟩

/-- Store for the C2 counterexample: global secret version 2. -/
def c2DB : DB := ⟨2, [c2Student], [], [], [], []⟩

/-- C2 counterexample: issuing a payload for a member whose `qr_version`
differs from the current global `qr_secret_version` and verifying it in
the same state returns Invalid, not the member's id — `generate_qr_payload`
signs the global version while `verify_qr_code` requires the member row to
match that version, so the round trip fails for this member. -/
theorem claim_C2_counterexample :
    verify_qr_code demoHmacHex (pstr "k") c2DB
        (generate_qr_payload demoHmacHex (pstr "k") c2DB c2Student 0) = VerifyOutcome.invalid
    ∧ VerifyOutcome.invalid ≠ VerifyOutcome.ok c2Student.id := by
  constructor
  · decide
  · decide

/-- C2 (amended): the round trip `Verify(Issue(member, secret, now))`
returns the member's id for any issuance time `now`, provided the member
is stored, the member's `qr_version` equals the current global
`qr_secret_version` (true of every member whose QR was issued under the
current epoch), and — as for the UUID ids, hex nonces and hex digests the
system produces — the id, nonce and digest contain no delimiter and the
digest is ASCII. -/
theorem claim_C2_roundtrip (hmacHex : PyStr → PyStr → PyStr) (secret : PyStr) (db : DB)
    (student : Student) (issued_at : Int)
    (hid : sepFree '|' student.id = true)
    (hnonce : sepFree '|' student.qr_nonce = true)
    (hsig_free : sepFree '|'
      (hmacHex secret (qrMessage db.qr_secret_version student.id issued_at student.qr_nonce)) = true)
    (hsig_ascii : asciiStr
      (hmacHex secret (qrMessage db.qr_secret_version student.id issued_at student.qr_nonce)) = true)
    (hmem : student ∈ db.students)
    (hver : student.qr_version = db.qr_secret_version) :
    verify_qr_code hmacHex secret db
      (generate_qr_payload hmacHex secret db student issued_at) = VerifyOutcome.ok student.id :=
  verify_generate_eq_ok hmacHex secret db student issued_at hid hnonce hsig_free hsig_ascii hmem hver

/-- Concrete member for the C2 witness, stamped with the current global
secret version. -/
def w2Student : Student :=
  ⟨pstr "sid2", pstr "nm", pstr "r1", pstr "rm", StudentStatus.APPROVED, 3, pstr "non"⟩

/-- Store for the C2 witness: global secret version 3 matches the member. -/
def w2DB : DB := ⟨3, [w2Student], [], [], [], []⟩

theorem claim_C2_roundtrip_witness :
    verify_qr_code demoHmacHex (pstr "k") w2DB
      (generate_qr_payload demoHmacHex (pstr "k") w2DB w2Student 7) = VerifyOutcome.ok w2Student.id :=
  claim_C2_roundtrip demoHmacHex (pstr "k") w2DB w2Student 7
    (by decide) (by decide) (by decide) (by decide) (by decide) (by decide)

/-- C4: a payload issued while the global secret epoch was
`db.qr_secret_version = N` is rejected as Invalid once the bulk QR
regeneration has advanced the epoch to N + 1 — for every store, hence in
particular when the member row (nonce included) still matches.  The
delimiter-freeness hypotheses hold for the ids, nonces and digests the
system produces. -/
theorem claim_C4_epoch_isolation (hmacHex : PyStr → PyStr → PyStr) (secret : PyStr) (db : DB)
    (student : Student) (issued_at : Int)
    (hid : sepFree '|' student.id = true)
    (hnonce : sepFree '|' student.qr_nonce = true)
    (hsig_free : sepFree '|'
      (hmacHex secret (qrMessage db.qr_secret_version student.id issued_at student.qr_nonce)) = true) :
    verify_qr_code hmacHex secret (regenerate_qr_codes db)
      (generate_qr_payload hmacHex secret db student issued_at) = VerifyOutcome.invalid := by
  have hsplit := split_generate_payload hmacHex secret db student issued_at hid hnonce hsig_free
  have hne : (db.qr_secret_version != (regenerate_qr_codes db).qr_secret_version) = true := by
    simp only [regenerate_qr_codes, bne_iff_ne, ne_eq]
    omega
  simp only [verify_qr_code, hsplit, pyParseInt_intRepr, hne, if_true]

/-- Concrete member for the C4 witness. -/
def w4Student : Student :=
  ⟨pstr "x1", pstr "nm", pstr "r2", pstr "rm", StudentStatus.APPROVED, 1, pstr "nn"⟩

/-- Store for the C4 witness: epoch 1 at issuance time. -/
def w4DB : DB := ⟨1, [w4Student], [], [], [], []⟩

theorem claim_C4_epoch_isolation_witness :
    verify_qr_code demoHmacHex (pstr "k") (regenerate_qr_codes w4DB)
      (generate_qr_payload demoHmacHex (pstr "k") w4DB w4Student 0) = VerifyOutcome.invalid :=
  claim_C4_epoch_isolation demoHmacHex (pstr "k") w4DB w4Student 0
    (by decide) (by decide) (by decide)

/-- Empty store with secret version 1, for the C3 evaluation. -/
def c3DB : DB := ⟨1, [], [], [], [], []⟩

/-- C3 (code-bug evidence): a well-formed 5-field payload whose signature
field contains a non-ASCII character makes `verify_qr_code` raise
(`hmac.compare_digest` raises `TypeError`, which the
`except (ValueError, IndexError)` clause does not catch) instead of
returning the uniform Invalid result — so verification is not total on
malformed signatures as the claim states. -/
theorem claim_C3_nonascii_signature_raises :
    (pySplit '|' (pstr "1|x|0|n|é")).length = 5
    ∧ verify_qr_code demoHmacHex (pstr "k") c3DB (pstr "1|x|0|n|é") = VerifyOutcome.raised
    ∧ VerifyOutcome.raised ≠ VerifyOutcome.invalid := by
  refine ⟨by decide, by decide, by decide⟩

/-- C5: `check_cutoff_rule` accepts a target date exactly when it is at or
after the spec's earliest exemption date for the fixed 23:00 cutoff; at
22:59 on day D that earliest date is D + 1 and at exactly 23:00 it is
D + 2; and `validate_mess_cut_dates` rejects any well-ordered range whose
`from_date` is earlier than that bound with the cutoff-violation error. -/
theorem claim_C5_cutoff_boundary (now : PyDateTime) (target from_date to_date D : Int) :
    (check_cutoff_rule now target = decide (specEarliestExemptionDate now (23 * 60) ≤ target))
    ∧ specEarliestExemptionDate ⟨D, 22 * 60 + 59⟩ (23 * 60) = D + 1
    ∧ specEarliestExemptionDate ⟨D, 23 * 60⟩ (23 * 60) = D + 2
    ∧ (from_date ≤ to_date →
        from_date < specEarliestExemptionDate now (23 * 60) →
        validate_mess_cut_dates (23 * 60) now from_date to_date =
          Except.error CutValidationError.cutoffViolation) := by
  refine ⟨rfl, rfl, rfl, ?_⟩
  intro h1 h2
  unfold validate_mess_cut_dates
  rw [if_neg (by omega)]
  unfold specEarliestExemptionDate at h2
  by_cases hc : 23 * 60 ≤ now.minuteOfDay
  · rw [if_pos hc] at h2
    simp only [hc, if_true]
    rw [if_pos h2]
  · rw [if_neg hc] at h2
    simp only [hc, if_false]
    rw [if_pos h2]

theorem claim_C5_cutoff_boundary_witness :
    validate_mess_cut_dates (23 * 60) ⟨0, 0⟩ 0 0 =
      Except.error CutValidationError.cutoffViolation :=
  (claim_C5_cutoff_boundary ⟨0, 0⟩ 0 0 0 0).2.2.2 (by decide) (by decide)

/-- C9: reactivating a staff credential whose `expires_at` is strictly in
the past fails with the already-expired error and returns the credential
unchanged; reactivating a non-expired credential sets `active := true`;
revoking sets `active := false` and is idempotent. -/
theorem claim_C9_reactivate_revoke (t : StaffToken) (now : Int) :
    (∀ e, t.expires_at = some e → e < now →
        reactivate t now = (ReactivateOutcome.alreadyExpired, t))
    ∧ ((∀ e, t.expires_at = some e → now ≤ e) →
        reactivate t now = (ReactivateOutcome.ok, { t with active := true }))
    ∧ (revoke t).active = false
    ∧ revoke (revoke t) = revoke t := by
  refine ⟨?_, ?_, rfl, rfl⟩
  · intro e he hlt
    simp [reactivate, he, hlt]
  · intro hnx
    unfold reactivate
    cases hx : t.expires_at with
    | none => rfl
    | some e =>
      have hle := hnx e hx
      have hne : ¬ e < now := by omega
      simp [hne]

theorem claim_C9_reactivate_revoke_witness :
    reactivate ⟨pstr "l", true, some 10, pstr "h"⟩ 20 =
      (ReactivateOutcome.alreadyExpired, ⟨pstr "l", true, some 10, pstr "h"⟩) :=
  (claim_C9_reactivate_revoke ⟨pstr "l", true, some 10, pstr "h"⟩ 20).1 10 (by decide) (by decide)

/-- C10: when QR verification fails, the scan endpoint answers with the
verdict code BLOCKED_STATUS (the same code a not-approved member gets)
and the reason "Invalid QR code", includes no snapshot and no scan id,
and leaves the store unchanged — no ScanRecord is persisted. -/
theorem claim_C10_invalid_qr_uniform (hmacHex : PyStr → PyStr → PyStr) (secret : PyStr)
    (db : DB) (qr_data : PyStr) (meal : Meal) (device_info : PyStr) (today : Int)
    (hv : verify_qr_code hmacHex secret db qr_data = VerifyOutcome.invalid) :
    scan_qr hmacHex secret db qr_data meal device_info today =
      (ScanHttpResult.ok ⟨ScanResult.BLOCKED_STATUS, none, none, some (pstr "Invalid QR code")⟩, db) := by
  simp [scan_qr, hv]

theorem claim_C10_invalid_qr_uniform_witness :
    scan_qr demoHmacHex (pstr "k") ⟨1, [], [], [], [], []⟩ (pstr "bad") Meal.DINNER (pstr "d") 3 =
      (ScanHttpResult.ok ⟨ScanResult.BLOCKED_STATUS, none, none, some (pstr "Invalid QR code")⟩,
        ⟨1, [], [], [], [], []⟩) :=
  claim_C10_invalid_qr_uniform demoHmacHex (pstr "k") ⟨1, [], [], [], [], []⟩ (pstr "bad")
    Meal.DINNER (pstr "d") 3 (by decide)

/-- Existing Verified cycle covering days 0..10 inclusive. -/
def c8P1 : Payment := ⟨pstr "s1", 0, 10, PaymentStatus.VERIFIED⟩

/-- New cycle for the same member starting on the existing cycle's last
day (10..20). -/
def c8P2 : Payment := ⟨pstr "s1", 10, 20, PaymentStatus.UPLOADED⟩

/-- C8 (code-bug evidence): creating a second cycle for the same member
whose range shares its first day with the last day of an existing
Verified cycle is accepted — the pre-save overlap check uses strict
`cycle_start < new.cycle_end` / `cycle_end > new.cycle_start` comparisons
on ranges that are inclusive everywhere else — so after the save two
active cycles of one member both cover day 10, violating the claimed
invariant and overlap rejection. -/
theorem claim_C8_boundary_overlap_not_rejected :
    create_payment [c8P1] c8P2 = Except.ok [c8P1, c8P2]
    ∧ payment_active c8P1 = true
    ∧ payment_active c8P2 = true
    ∧ c8P1.student_id = c8P2.student_id
    ∧ payment_covers c8P1 10 = true
    ∧ payment_covers c8P2 10 = true := by
  refine ⟨rfl, rfl, rfl, rfl, by decide, by decide⟩

/-- C6: when the credential verifies and resolves to a stored member, one
scan appends exactly one ScanEvent carrying that member, the declared meal
and the computed verdict — for denials too — and the 200 response carries
the verdict, the member snapshot exactly when the verdict is ALLOWED, and
the human-readable reason exactly when it is not. -/
theorem claim_C6_scan_persists_and_responds (hmacHex : PyStr → PyStr → PyStr) (secret : PyStr)
    (db : DB) (qr_data : PyStr) (meal : Meal) (device_info : PyStr) (today : Int)
    (student_id : PyStr) (student : Student)
    (hv : verify_qr_code hmacHex secret db qr_data = VerifyOutcome.ok student_id)
    (hf : db.students.find? (fun s => s.id == student_id) = some student) :
    ((scan_qr hmacHex secret db qr_data meal device_info today).2.scan_events =
        db.scan_events ++
          [⟨student.id, meal, (check_meal_access db student meal today).result, device_info⟩])
    ∧ ∃ data, (scan_qr hmacHex secret db qr_data meal device_info today).1 = ScanHttpResult.ok data
        ∧ data.result = (check_meal_access db student meal today).result
        ∧ data.student_snapshot =
            (if (check_meal_access db student meal today).result = ScanResult.ALLOWED
             then some (get_student_snapshot db student today) else none)
        ∧ data.reason =
            (if (check_meal_access db student meal today).result = ScanResult.ALLOWED
             then none else some (check_meal_access db student meal today).reason) := by
  simp only [scan_qr, hv, hf]
  by_cases hr : (check_meal_access db student meal today).result = ScanResult.ALLOWED
  · simp [hr]
  · simp [hr]

/-- Concrete approved member for the C6 witness. -/
def w6Student : Student :=
  ⟨pstr "s6", pstr "nm", pstr "r6", pstr "rm", StudentStatus.APPROVED, 1, pstr "n6"⟩

/-- Store for the C6 witness: the member is stored, no payments exist, so
the computed verdict is a denial — exercising recording-on-denial. -/
def w6DB : DB := ⟨1, [w6Student], [], [], [], []⟩

/-- A payload for the C6 witness member, issued in the same state. -/
def w6Payload : PyStr := generate_qr_payload demoHmacHex (pstr "k") w6DB w6Student 0

theorem claim_C6_scan_persists_and_responds_witness :
    ((scan_qr demoHmacHex (pstr "k") w6DB w6Payload Meal.LUNCH (pstr "d") 5).2.scan_events =
        w6DB.scan_events ++
          [⟨w6Student.id, Meal.LUNCH,
            (check_meal_access w6DB w6Student Meal.LUNCH 5).result, pstr "d"⟩])
    ∧ ∃ data, (scan_qr demoHmacHex (pstr "k") w6DB w6Payload Meal.LUNCH (pstr "d") 5).1 =
          ScanHttpResult.ok data
        ∧ data.result = (check_meal_access w6DB w6Student Meal.LUNCH 5).result
        ∧ data.student_snapshot =
            (if (check_meal_access w6DB w6Student Meal.LUNCH 5).result = ScanResult.ALLOWED
             then some (get_student_snapshot w6DB w6Student 5) else none)
        ∧ data.reason =
            (if (check_meal_access w6DB w6Student Meal.LUNCH 5).result = ScanResult.ALLOWED
             then none else some (check_meal_access w6DB w6Student Meal.LUNCH 5).reason) :=
  claim_C6_scan_persists_and_responds demoHmacHex (pstr "k") w6DB w6Payload Meal.LUNCH
    (pstr "d") 5 (pstr "s6") w6Student (by decide) (by decide)

theorem find?_unique_hash (h : PyStr) (t : StaffToken) :
    ∀ tokens : List StaffToken, t ∈ tokens → t.token_hash = h →
    (∀ u ∈ tokens, u.token_hash = h → u = t) →
    tokens.find? (fun u => u.token_hash == h && u.active) =
      (if t.active then some t else none) := by
  intro tokens
  induction tokens with
  | nil =>
    intro hmem
    cases hmem
  | cons c rest ih =>
    intro hmem hhash huniq
    by_cases hch : c.token_hash = h
    · have hct : c = t := huniq c (List.mem_cons_self c rest) hch
      subst hct
      cases hact : c.active
      · have hnone : rest.find? (fun u => u.token_hash == h && u.active) = none := by
          rw [List.find?_eq_none]
          intro u hu
          by_cases huh : u.token_hash = h
          · have hu2 := huniq u (List.mem_cons_of_mem c hu) huh
            subst hu2
            simp [hact]
          · simp [huh]
        rw [List.find?_cons_of_neg _ (by simp [hch, hact]), hnone]
        simp
      · rw [List.find?_cons_of_pos _ (by simp [hch, hact])]
        simp
    · have hmem2 : t ∈ rest := by
        rcases List.mem_cons.mp hmem with rfl | hr
        · exact absurd hhash hch
        · exact hr
      have hrest := ih hmem2 hhash (fun u hu huh => huniq u (List.mem_cons_of_mem c hu) huh)
      rw [List.find?_cons_of_neg _ (by simp [hch]), hrest]

/-- C7 (amended): provided the presented key hashes to the stored
credential's `token_hash` (and no other stored credential shares that
hash — the column is unique), authentication succeeds, returning that
credential, exactly when `active` is true and `expires_at` is null or at
or after `now`; otherwise it fails closed.  The boundary differs from the
claim: at `expires_at = now` the code still authenticates. -/
theorem claim_C7_token_validity (shaHex : PyStr → PyStr) (tokens : List StaffToken)
    (key : PyStr) (now : Int) (t : StaffToken)
    (hmem : t ∈ tokens)
    (hhash : t.token_hash = shaHex key)
    (huniq : ∀ u ∈ tokens, u.token_hash = shaHex key → u = t) :
    authenticate_credentials shaHex tokens key now =
      (if t.active && (match t.expires_at with
          | some e => decide (now ≤ e)
          | none => true) then some t else none) := by
  simp only [authenticate_credentials]
  rw [find?_unique_hash (shaHex key) t tokens hmem hhash huniq]
  cases hact : t.active
  · simp
  · cases hexp : t.expires_at with
    | none => simp [StaffToken.is_valid, hact, hexp]
    | some e =>
      by_cases he : e < now
      · have hn : ¬ now ≤ e := by omega
        simp [StaffToken.is_valid, hact, hexp, he, hn]
      · have hn : now ≤ e := by omega
        simp [StaffToken.is_valid, hact, hexp, he, hn]

/-- Stored staff credential for the C7 counterexample: active, expiring
exactly at instant 0. -/
def c7Token : StaffToken := ⟨pstr "lab", true, some 0, demoShaHex (pstr "key")⟩

/-- C7 counterexample: at `now` equal to `expires_at`, authentication
still succeeds — the code rejects only strictly-past expiry
(`expires_at < now`), while the claim demands `expiresAt > now` for
success, hence Unauthenticated at this instant. -/
theorem claim_C7_counterexample :
    authenticate_credentials demoShaHex [c7Token] (pstr "key") 0 = some c7Token
    ∧ c7Token.active = true
    ∧ c7Token.expires_at = some 0
    ∧ ¬ ((0 : Int) < 0) := by
  refine ⟨by decide, rfl, rfl, by decide⟩

/-- Stored staff credential for the C7 witness. -/
def w7Token : StaffToken := ⟨pstr "lb", true, some 100, demoShaHex (pstr "k7")⟩

theorem claim_C7_token_validity_witness :
    authenticate_credentials demoShaHex [w7Token] (pstr "k7") 50 =
      (if w7Token.active && (match w7Token.expires_at with
          | some e => decide ((50 : Int) ≤ e)
          | none => true) then some w7Token else none) :=
  claim_C7_token_validity demoShaHex [w7Token] (pstr "k7") 50 w7Token
    (by decide) (by decide) (by decide)
